import Mathlib

/-! Shallow embedding of the Smart-Agri-Suite cultivator intent module
(`backend/app/services/inference.py` and
`backend/app/api/v1/endpoints/calls.py` of the repository), together with
theorems checking the specification's claims against it.  Python floats are
embedded as exact rationals; Python dicts as association lists with
first-occurrence lookup. -/

namespace SmartAgri

/-- Embeds `INTENT_LABELS` (inference.py line 58). -/
def INTENT_LABELS : List String := ["PROCEED", "VERIFY", "REJECT"]

/-- Embeds `AUDIO_FEATURES` (inference.py lines 33-42). -/
def AUDIO_FEATURES : List String :=
  ["duration_seconds", "rms_mean", "rms_std", "f0_mean", "f0_std",
   "zcr_mean", "spectral_centroid_mean", "tempo_proxy"]

/-- Embeds `TEXT_FEATURES` (inference.py lines 44-53). -/
def TEXT_FEATURES : List String :=
  ["transcript_char_len", "transcript_word_count", "urgency_count", "money_count",
   "secrecy_count", "pressure_count", "id_avoidance_count", "otp_pin_count"]

/-- Embeds `ALL_FEATURES` (inference.py line 55). -/
def ALL_FEATURES : List String := AUDIO_FEATURES ++ TEXT_FEATURES

/-- A Python dict with float values, embedded as an association list
(keys assumed unique, lookup returns the first binding). -/
abbrev DictQ := List (String × ℚ)

/-- A Python dict with int values, embedded as an association list. -/
abbrev DictZ := List (String × ℤ)

/-- Python `d.get(k, dflt)` on a float-valued dict. -/
def dget (d : DictQ) (k : String) (dflt : ℚ) : ℚ := (d.lookup k).getD dflt

/-- Python `d.get(k, dflt)` on an int-valued dict. -/
def dgetZ (d : DictZ) (k : String) (dflt : ℤ) : ℤ := (d.lookup k).getD dflt

/-- Python `pat in text` on lists of characters: contiguous-sublist
containment, checked position by position. -/
def charsContain (text pat : List Char) : Bool :=
  pat.isPrefixOf text ||
    match text with
    | [] => false
    | _ :: t => charsContain t pat

/-- Python `pat in text` on strings: substring containment. -/
def strContains (text pat : String) : Bool := charsContain text.data pat.data

/-- Python `str.lower()`, embedded character-wise over ASCII letters. -/
def lower_str (s : String) : String := String.mk (s.data.map Char.toLower)

/-- Embeds `count_keywords` (inference.py lines 303-304): the number of
keywords from the list that occur in the text, each keyword tested once by
substring containment. -/
def count_keywords (text : String) (keywords : List String) : Nat :=
  keywords.countP (fun kw => strContains text kw)

/-- Python `len(s.split())`: the number of maximal whitespace-free words. -/
def count_words (s : String) : Nat :=
  ((s.split Char.isWhitespace).filter (fun w => w != "")).length

/-- Embeds `urgency_kw` (inference.py line 296). -/
def urgency_kw : List String :=
  ["urgent", "immediately", "hurry", "right now", "today only", "limited time"]

/-- Embeds `money_kw` (inference.py line 297). -/
def money_kw : List String :=
  ["send money", "transfer", "payment", "fee", "deposit", "prize", "won", "lottery"]

/-- Embeds `secrecy_kw` (inference.py line 298). -/
def secrecy_kw : List String :=
  ["don\x27t tell", "secret", "keep this between", "confidential"]

/-- Embeds `pressure_kw` (inference.py line 299). -/
def pressure_kw : List String :=
  ["you must", "have to", "no choice", "final warning", "legal action"]

/-- Embeds `id_avoid_kw` (inference.py line 300). -/
def id_avoid_kw : List String :=
  ["i am", "this is", "calling from", "representative"]

/-- Embeds `otp_pin_kw` (inference.py line 301). -/
def otp_pin_kw : List String :=
  ["otp", "pin", "password", "code", "verification"]

/-- Embeds `IntentRiskClassifier._extract_text_features` (inference.py lines
280-315).  Lower-casing is embedded ASCII-wise via `lower_str`, and
`str.split()` / whitespace is embedded over the ASCII whitespace characters. -/
def extract_text_features (transcript : String) : DictZ :=
  if transcript = "" then TEXT_FEATURES.map (fun feat => (feat, 0))
  else
    let text_lower := lower_str transcript
    [("transcript_char_len", (transcript.length : ℤ)),
     ("transcript_word_count", (count_words transcript : ℤ)),
     ("urgency_count", (count_keywords text_lower urgency_kw : ℤ)),
     ("money_count", (count_keywords text_lower money_kw : ℤ)),
     ("secrecy_count", (count_keywords text_lower secrecy_kw : ℤ)),
     ("pressure_count", (count_keywords text_lower pressure_kw : ℤ)),
     ("id_avoidance_count", (count_keywords text_lower id_avoid_kw : ℤ)),
     ("otp_pin_count", (count_keywords text_lower otp_pin_kw : ℤ))]

/-- The urgency keyword list exactly as the specification words it (§4.2). -/
def spec_urgency_list : List String :=
  ["urgent", "immediately", "hurry", "right now", "today only", "limited time"]

/-- The money keyword list exactly as the specification words it (§4.2). -/
def spec_money_list : List String :=
  ["send money", "transfer", "payment", "fee", "deposit", "prize", "won", "lottery"]

/-- The secrecy keyword list exactly as the specification words it (§4.2). -/
def spec_secrecy_list : List String :=
  ["don\x27t tell", "secret", "keep this between", "confidential"]

/-- The pressure keyword list exactly as the specification words it (§4.2). -/
def spec_pressure_list : List String :=
  ["you must", "have to", "no choice", "final warning", "legal action"]

/-- The id-avoidance keyword list exactly as the specification words it (§4.2). -/
def spec_id_avoidance_list : List String :=
  ["i am", "this is", "calling from", "representative"]

/-- The otp-or-pin keyword list exactly as the specification words it (§4.2). -/
def spec_otp_pin_list : List String :=
  ["otp", "pin", "password", "code", "verification"]

/-- The lexical extractor as the specification words it (§4.2): empty or
absent transcript yields all-zero features; otherwise char length and word
count are direct measurements, and each of the six red-flag counters counts,
by case-insensitive substring containment on the lower-cased transcript, the
keywords of its fixed list that occur. -/
def spec_lexical_extract (transcript : String) : DictZ :=
  if transcript = "" then TEXT_FEATURES.map (fun feat => (feat, 0))
  else
    let lowered := lower_str transcript
    [("transcript_char_len", (transcript.length : ℤ)),
     ("transcript_word_count", (count_words transcript : ℤ)),
     ("urgency_count", (count_keywords lowered spec_urgency_list : ℤ)),
     ("money_count", (count_keywords lowered spec_money_list : ℤ)),
     ("secrecy_count", (count_keywords lowered spec_secrecy_list : ℤ)),
     ("pressure_count", (count_keywords lowered spec_pressure_list : ℤ)),
     ("id_avoidance_count", (count_keywords lowered spec_id_avoidance_list : ℤ)),
     ("otp_pin_count", (count_keywords lowered spec_otp_pin_list : ℤ))]

/-- Pitch-variability rule of `predict_with_rules` (inference.py lines
449-456), as its additive contribution to (proceed, verify, reject). -/
def pitch_rule (pitch_std : ℚ) : ℚ × ℚ × ℚ :=
  if pitch_std < 22 then (0.15, 0, 0)
  else if pitch_std > 35 then (0, 0, 0.15)
  else (0, 0.10, 0)

/-- Pause-ratio rule (inference.py lines 458-465). -/
def pause_rule (pr : ℚ) : ℚ × ℚ × ℚ :=
  if pr < 0.12 then (0.15, 0, 0)
  else if pr > 0.22 then (0, 0, 0.15)
  else (0, 0.10, 0)

/-- Speech-rate rule (inference.py lines 467-474). -/
def speech_rule (speech_rate : ℚ) : ℚ × ℚ × ℚ :=
  if speech_rate > 3.2 then (0.10, 0, 0)
  else if speech_rate < 2.7 then (0, 0, 0.10)
  else (0, 0.05, 0)

/-- Sentiment-balance rule (inference.py lines 480-489). -/
def sentiment_rule (positive_count negative_count : ℤ) : ℚ × ℚ × ℚ :=
  if positive_count > negative_count * 2 then (0.20, 0, 0)
  else if negative_count > positive_count * 2 then (0, 0, 0.20)
  else (0, 0.15, 0)

/-- Hesitation-marker rule (inference.py lines 491-498). -/
def hesitation_rule (hesitation_count : ℤ) : ℚ × ℚ × ℚ :=
  if hesitation_count ≤ 1 then (0.10, 0, 0)
  else if hesitation_count ≥ 5 then (0, 0, 0.15)
  else (0, 0.10, 0)

/-- Question-count rule (inference.py lines 500-508); at `≥ 6` both reject
and verify receive weight. -/
def question_rule (question_count : ℤ) : ℚ × ℚ × ℚ :=
  if question_count ≤ 2 then (0.10, 0, 0)
  else if question_count ≥ 6 then (0, 0.05, 0.10)
  else (0, 0.10, 0)

/-- Word-count rule (inference.py lines 510-515); the middle band adds
nothing. -/
def word_count_rule (word_count : ℤ) : ℚ × ℚ × ℚ :=
  if word_count ≥ 150 then (0.10, 0, 0)
  else if word_count < 70 then (0, 0, 0.10)
  else (0, 0, 0)

/-- Accumulated raw scores of `IntentRiskClassifier.predict_with_rules`
(inference.py lines 440-524), base weights 0.1 / 0.15 / 0.1 included, read
off the two feature dicts with the source's keys and defaults. -/
def rules_scores (prosodic_features : DictQ) (text_features : DictZ) : ℚ × ℚ × ℚ :=
  let c1 := pitch_rule (dget prosodic_features "pitch_std" 25.0)
  let c2 := pause_rule (dget prosodic_features "pause_ratio" 0.15)
  let c3 := speech_rule (dget prosodic_features "speech_rate" 3.0)
  let c4 := sentiment_rule (dgetZ text_features "positive_word_count" 0)
    (dgetZ text_features "negative_word_count" 0)
  let c5 := hesitation_rule (dgetZ text_features "hesitation_count" 0)
  let c6 := question_rule (dgetZ text_features "question_count" 0)
  let c7 := word_count_rule (dgetZ text_features "text_word_count" 100)
  (c1.1 + c2.1 + c3.1 + c4.1 + c5.1 + c6.1 + c7.1 + 0.1,
   c1.2.1 + c2.2.1 + c3.2.1 + c4.2.1 + c5.2.1 + c6.2.1 + c7.2.1 + 0.15,
   c1.2.2 + c2.2.2 + c3.2.2 + c4.2.2 + c5.2.2 + c6.2.2 + c7.2.2 + 0.1)

/-- Normalisation step of `predict_with_rules` (inference.py lines 526-532). -/
def normalized_scores (prosodic_features : DictQ) (text_features : DictZ) : ℚ × ℚ × ℚ :=
  let s := rules_scores prosodic_features text_features
  let total := s.1 + s.2.1 + s.2.2
  (s.1 / total, s.2.1 / total, s.2.2 / total)

/-- Embeds `IntentRiskClassifier.predict_with_rules` (inference.py lines
423-541).  The label choice embeds Python's `max(scores, key=scores.get)`
over the insertion-ordered dict PROCEED, VERIFY, REJECT (first maximum wins),
and `all_scores` embeds the stable descending `list.sort` on the score. -/
def predict_with_rules (prosodic_features : DictQ) (text_features : DictZ) :
    String × ℚ × List (String × ℚ) :=
  let n := normalized_scores prosodic_features text_features
  let predicted_label :=
    if n.2.1 > n.1 then (if n.2.2 > n.2.1 then "REJECT" else "VERIFY")
    else (if n.2.2 > n.1 then "REJECT" else "PROCEED")
  let confidence :=
    if predicted_label = "PROCEED" then n.1
    else if predicted_label = "VERIFY" then n.2.1
    else n.2.2
  let all_scores := List.insertionSort (fun a b => b.2 ≤ a.2)
    [("PROCEED", n.1), ("VERIFY", n.2.1), ("REJECT", n.2.2)]
  (predicted_label, confidence, all_scores)

theorem pitch_rule_nonneg (x : ℚ) :
    0 ≤ (pitch_rule x).1 ∧ 0 ≤ (pitch_rule x).2.1 ∧ 0 ≤ (pitch_rule x).2.2 := by
  unfold pitch_rule; split_ifs <;> refine ⟨by norm_num, by norm_num, by norm_num⟩

theorem pause_rule_nonneg (x : ℚ) :
    0 ≤ (pause_rule x).1 ∧ 0 ≤ (pause_rule x).2.1 ∧ 0 ≤ (pause_rule x).2.2 := by
  unfold pause_rule; split_ifs <;> refine ⟨by norm_num, by norm_num, by norm_num⟩

theorem speech_rule_nonneg (x : ℚ) :
    0 ≤ (speech_rule x).1 ∧ 0 ≤ (speech_rule x).2.1 ∧ 0 ≤ (speech_rule x).2.2 := by
  unfold speech_rule; split_ifs <;> refine ⟨by norm_num, by norm_num, by norm_num⟩

theorem sentiment_rule_nonneg (p q : ℤ) :
    0 ≤ (sentiment_rule p q).1 ∧ 0 ≤ (sentiment_rule p q).2.1 ∧ 0 ≤ (sentiment_rule p q).2.2 := by
  unfold sentiment_rule; split_ifs <;> refine ⟨by norm_num, by norm_num, by norm_num⟩

theorem hesitation_rule_nonneg (x : ℤ) :
    0 ≤ (hesitation_rule x).1 ∧ 0 ≤ (hesitation_rule x).2.1 ∧ 0 ≤ (hesitation_rule x).2.2 := by
  unfold hesitation_rule; split_ifs <;> refine ⟨by norm_num, by norm_num, by norm_num⟩

theorem question_rule_nonneg (x : ℤ) :
    0 ≤ (question_rule x).1 ∧ 0 ≤ (question_rule x).2.1 ∧ 0 ≤ (question_rule x).2.2 := by
  unfold question_rule; split_ifs <;> refine ⟨by norm_num, by norm_num, by norm_num⟩

theorem word_count_rule_nonneg (x : ℤ) :
    0 ≤ (word_count_rule x).1 ∧ 0 ≤ (word_count_rule x).2.1 ∧ 0 ≤ (word_count_rule x).2.2 := by
  unfold word_count_rule; split_ifs <;> refine ⟨by norm_num, by norm_num, by norm_num⟩

theorem rules_scores_pos (pf : DictQ) (tf : DictZ) :
    0 < (rules_scores pf tf).1 ∧ 0 < (rules_scores pf tf).2.1 ∧ 0 < (rules_scores pf tf).2.2 := by
  obtain ⟨a1, b1, d1⟩ := pitch_rule_nonneg (dget pf "pitch_std" 25.0)
  obtain ⟨a2, b2, d2⟩ := pause_rule_nonneg (dget pf "pause_ratio" 0.15)
  obtain ⟨a3, b3, d3⟩ := speech_rule_nonneg (dget pf "speech_rate" 3.0)
  obtain ⟨a4, b4, d4⟩ := sentiment_rule_nonneg (dgetZ tf "positive_word_count" 0)
    (dgetZ tf "negative_word_count" 0)
  obtain ⟨a5, b5, d5⟩ := hesitation_rule_nonneg (dgetZ tf "hesitation_count" 0)
  obtain ⟨a6, b6, d6⟩ := question_rule_nonneg (dgetZ tf "question_count" 0)
  obtain ⟨a7, b7, d7⟩ := word_count_rule_nonneg (dgetZ tf "text_word_count" 100)
  unfold rules_scores
  refine ⟨by linarith, by linarith, by linarith⟩

theorem rules_total_pos (pf : DictQ) (tf : DictZ) :
    0 < (rules_scores pf tf).1 + (rules_scores pf tf).2.1 + (rules_scores pf tf).2.2 := by
  obtain ⟨h1, h2, h3⟩ := rules_scores_pos pf tf
  linarith

theorem normalized_scores_sum (pf : DictQ) (tf : DictZ) :
    (normalized_scores pf tf).1 + (normalized_scores pf tf).2.1 +
      (normalized_scores pf tf).2.2 = 1 := by
  have ht := rules_total_pos pf tf
  unfold normalized_scores
  rw [div_add_div_same, div_add_div_same, div_self ht.ne']

theorem normalized_scores_nonneg (pf : DictQ) (tf : DictZ) :
    0 ≤ (normalized_scores pf tf).1 ∧ 0 ≤ (normalized_scores pf tf).2.1 ∧
      0 ≤ (normalized_scores pf tf).2.2 := by
  have ht := rules_total_pos pf tf
  obtain ⟨h1, h2, h3⟩ := rules_scores_pos pf tf
  unfold normalized_scores
  exact ⟨div_nonneg h1.le ht.le, div_nonneg h2.le ht.le, div_nonneg h3.le ht.le⟩

/-- Claim C1: for every input feature set, the rule-engine strategy's result
satisfies: the per-label scores sum to 1 (hence to 1.0 within 1e-3), the
score labels are exactly PROCEED, VERIFY, REJECT, the confidence equals the
score of the predicted label (the pair is among the per-label scores), and
the predicted label is an arg-max of the per-label scores. -/
theorem C1_rule_engine_prediction_invariants (pf : DictQ) (tf : DictZ) :
    (((predict_with_rules pf tf).2.2).map Prod.snd).sum = 1 ∧
    List.Perm (((predict_with_rules pf tf).2.2).map Prod.fst) INTENT_LABELS ∧
    ((predict_with_rules pf tf).1, (predict_with_rules pf tf).2.1) ∈
      (predict_with_rules pf tf).2.2 ∧
    (∀ x ∈ (predict_with_rules pf tf).2.2, x.2 ≤ (predict_with_rules pf tf).2.1) := by
  have hsum := normalized_scores_sum pf tf
  obtain ⟨hP, hV, hR⟩ := normalized_scores_nonneg pf tf
  simp only [predict_with_rules]
  set n := normalized_scores pf tf with hn
  have hperm : List.Perm (List.insertionSort (fun a b => b.2 ≤ a.2)
      [("PROCEED", n.1), ("VERIFY", n.2.1), ("REJECT", n.2.2)])
      [("PROCEED", n.1), ("VERIFY", n.2.1), ("REJECT", n.2.2)] :=
    List.perm_insertionSort _ _
  refine ⟨?_, ?_, ?_, ?_⟩
  · have := (hperm.map Prod.snd).sum_eq
    simp only [List.map_cons, List.map_nil, List.sum_cons, List.sum_nil] at this
    simp only [this]
    linarith
  · have := hperm.map Prod.fst
    simp only [List.map_cons, List.map_nil] at this
    simpa [INTENT_LABELS] using this
  · rw [hperm.mem_iff]
    by_cases h1 : n.2.1 > n.1
    · by_cases h2 : n.2.2 > n.2.1 <;> simp [h1, h2]
    · by_cases h2 : n.2.2 > n.1 <;> simp [h1, h2]
  · intro x hx
    rw [hperm.mem_iff] at hx
    simp only [List.mem_cons, List.not_mem_nil, or_false] at hx
    by_cases h1 : n.2.1 > n.1
    · by_cases h2 : n.2.2 > n.2.1
      · simp only [if_pos h1, if_pos h2]
        rcases hx with rfl | rfl | rfl <;> simp <;> linarith
      · simp only [if_pos h1, if_neg h2]
        rcases hx with rfl | rfl | rfl <;> simp <;> linarith
    · by_cases h2 : n.2.2 > n.1
      · simp only [if_neg h1, if_pos h2]
        rcases hx with rfl | rfl | rfl <;> simp <;> linarith
      · simp only [if_neg h1, if_neg h2]
        rcases hx with rfl | rfl | rfl <;> simp <;> linarith

/-- Witness for claim C1 at the empty feature dicts. -/
theorem C1_rule_engine_prediction_invariants_witness :
    (((predict_with_rules [] []).2.2).map Prod.snd).sum = 1 ∧
    (∀ x ∈ (predict_with_rules [] []).2.2, x.2 ≤ (predict_with_rules [] []).2.1) :=
  ⟨(C1_rule_engine_prediction_invariants [] []).1,
   (C1_rule_engine_prediction_invariants [] []).2.2.2⟩

/-- Every prosodic feature the rule engine reads, set explicitly to zero. -/
def all_zero_prosodic : DictQ :=
  [("pitch_std", 0), ("pause_ratio", 0), ("speech_rate", 0)]

/-- Every lexical feature the rule engine reads, set explicitly to zero. -/
def all_zero_text : DictZ :=
  [("positive_word_count", 0), ("negative_word_count", 0),
   ("hesitation_count", 0), ("question_count", 0), ("text_word_count", 0)]

/-- Counterexample to claim C3: on the all-zero feature vector the
rule-engine strategy does not predict VERIFY (it predicts PROCEED: the
low-pitch-variability, low-pause, low-hesitation and low-question branches
award proceed 0.5 before bases, outweighing the largest base seed 0.15). -/
theorem C3_counterexample :
    (predict_with_rules all_zero_prosodic all_zero_text).1 ≠ "VERIFY" := by
  have h : (predict_with_rules all_zero_prosodic all_zero_text).1 = "PROCEED" := by
    simp [predict_with_rules, normalized_scores, rules_scores, pitch_rule, pause_rule,
      speech_rule, sentiment_rule, hesitation_rule, question_rule, word_count_rule,
      dget, dgetZ, all_zero_prosodic, all_zero_text, List.lookup]
    norm_num
  rw [h]
  decide

/-- Claim C3 as amended: on the all-zero feature vector the rule-engine
strategy predicts PROCEED; the VERIFY-leaning outcome arises only when the
feature dicts are empty, so that the code defaults (pitch_std 25.0,
pause_ratio 0.15, speech_rate 3.0, word count 100) route every rule through
its middle branch and the verify accumulator wins. -/
theorem C3_amended_all_zero_is_proceed :
    (predict_with_rules all_zero_prosodic all_zero_text).1 = "PROCEED" ∧
    (predict_with_rules [] []).1 = "VERIFY" := by
  constructor <;>
  · simp [predict_with_rules, normalized_scores, rules_scores, pitch_rule, pause_rule,
      speech_rule, sentiment_rule, hesitation_rule, question_rule, word_count_rule,
      dget, dgetZ, all_zero_prosodic, all_zero_text, List.lookup]
    norm_num

/-- Claim C6: the lexical feature extractor is total (a Lean function), an
empty transcript yields all-zero features, and on every transcript it agrees
with the extractor as the specification words it: char length and word count
are direct measurements and the six red-flag counters count, by
case-insensitive substring containment on the lower-cased transcript (no
word boundaries), the keywords of the specification's six fixed lists. -/
theorem C6_lexical_extractor_matches_spec :
    (∀ t : String, extract_text_features t = spec_lexical_extract t) ∧
    extract_text_features "" = TEXT_FEATURES.map (fun feat => (feat, 0)) ∧
    dgetZ (extract_text_features "wonderful") "money_count" 0 = 1 :=
  ⟨fun _ => rfl, rfl, by decide⟩

/-- The PROCEED acceptance-test prosodic features of the specification. -/
def proceed_case_prosodic : DictQ :=
  [("pitch_std", 15), ("pause_ratio", 0.08), ("speech_rate", 3.5)]

/-- The PROCEED acceptance-test lexical features of the specification. -/
def proceed_case_text : DictZ :=
  [("positive_word_count", 10), ("negative_word_count", 1),
   ("hesitation_count", 0), ("question_count", 1), ("text_word_count", 200)]

/-- Claim C7: on the specification's PROCEED acceptance-test feature vector
(pitch_std 15, pause_ratio 0.08, speech_rate 3.5, 10 positive vs 1 negative
words, 0 hesitations, 1 question, 200 words) the rule engine predicts
PROCEED with confidence strictly greater than 0.5. -/
theorem C7_proceed_case :
    (predict_with_rules proceed_case_prosodic proceed_case_text).1 = "PROCEED" ∧
    (1 : ℚ)/2 < (predict_with_rules proceed_case_prosodic proceed_case_text).2.1 := by
  constructor <;>
  · simp [predict_with_rules, normalized_scores, rules_scores, pitch_rule, pause_rule,
      speech_rule, sentiment_rule, hesitation_rule, question_rule, word_count_rule,
      dget, dgetZ, proceed_case_prosodic, proceed_case_text, List.lookup]
    norm_num

/-- The REJECT acceptance-test prosodic features of the specification. -/
def reject_case_prosodic : DictQ :=
  [("pitch_std", 45), ("pause_ratio", 0.30), ("speech_rate", 2.0)]

/-- The REJECT acceptance-test lexical features of the specification. -/
def reject_case_text : DictZ :=
  [("positive_word_count", 1), ("negative_word_count", 10),
   ("hesitation_count", 8), ("question_count", 7), ("text_word_count", 40)]

/-- Claim C8: on the specification's REJECT acceptance-test feature vector
(pitch_std 45, pause_ratio 0.30, speech_rate 2.0, 1 positive vs 10 negative
words, 8 hesitations, 7 questions, 40 words) the rule engine predicts
REJECT. -/
theorem C8_reject_case :
    (predict_with_rules reject_case_prosodic reject_case_text).1 = "REJECT" := by
  simp [predict_with_rules, normalized_scores, rules_scores, pitch_rule, pause_rule,
    speech_rule, sentiment_rule, hesitation_rule, question_rule, word_count_rule,
    dget, dgetZ, reject_case_prosodic, reject_case_text, List.lookup]
  norm_num

/-- Python `round(x, 4)` (round half to even), embedded decimally on exact
rationals. -/
def round_half_even (x : ℚ) : ℤ :=
  if x - ⌊x⌋ < 1/2 then ⌊x⌋
  else if x - ⌊x⌋ > 1/2 then ⌊x⌋ + 1
  else if Even ⌊x⌋ then ⌊x⌋ else ⌊x⌋ + 1

/-- Rounding to four decimal places as in `round(score, 4)`. -/
def round4 (x : ℚ) : ℚ := (round_half_even (x * 10000) : ℚ) / 10000

/-- Embeds the `IntentScore` schema (schemas/prediction.py). -/
structure IntentScore where
  label : String
  score : ℚ
deriving DecidableEq

/-- Embeds the `PredictionResult` schema (schemas/prediction.py). -/
structure PredictionResult where
  predicted_intent : String
  confidence : ℚ
  all_scores : List IntentScore
deriving DecidableEq

/-- Result assembly of `IntentRiskClassifier.predict` (inference.py lines
592-602): rounds the confidence and every score to four decimals. -/
def build_result (predicted_label : String) (confidence : ℚ)
    (all_scores : List (String × ℚ)) : PredictionResult :=
  { predicted_intent := predicted_label,
    confidence := round4 confidence,
    all_scores := all_scores.map (fun p => { label := p.1, score := round4 p.2 }) }

/-- Embeds `IntentRiskClassifier.extract_features` (inference.py lines
318-377) for the inputs the claims exercise: pre-computed feature dicts,
transcript-only, or nothing.  The raw-audio librosa extraction path is
external signal processing and is not modelled; no claim depends on it. -/
def extract_features (transcript : Option String)
    (audio_features : Option DictQ) (text_features : Option DictZ) : List ℚ :=
  match audio_features, text_features with
  | some af, some tfd =>
      AUDIO_FEATURES.map (fun feat => dget af feat 0) ++
        TEXT_FEATURES.map (fun feat => (dgetZ tfd feat 0 : ℚ))
  | _, _ =>
      match transcript with
      | some t =>
          if t ≠ "" then
            AUDIO_FEATURES.map (fun _ => (0 : ℚ)) ++
              TEXT_FEATURES.map (fun feat => (dgetZ (extract_text_features t) feat 0 : ℚ))
          else ALL_FEATURES.map (fun _ => (0 : ℚ))
      | none => ALL_FEATURES.map (fun _ => (0 : ℚ))

/-- State of `IntentRiskClassifier` relevant to `predict`: which strategy is
selected (`use_ml_model`, `self.model is not None`) and the external trained
model artifact (scaler, estimator, label encoder), embedded as a function
that either returns (label, confidence, scores) or raises. -/
structure Classifier where
  use_ml_model : Bool
  has_model : Bool
  ml_strategy : List ℚ → Except String (String × ℚ × List (String × ℚ))
  model_version : String

/-- Embeds `IntentRiskClassifier.predict` (inference.py lines 543-616).  The
method body contains no exception handler, so a failure raised inside the ML
strategy propagates to the caller; the clock readings taken around the body
only produce the reported processing time, never the result. -/
def Classifier.predict (c : Classifier) (start_time end_time : ℚ)
    (transcript : Option String)
    (audio_features : Option DictQ) (text_features : Option DictZ) :
    Except String (PredictionResult × ℚ × String) :=
  let af := audio_features.getD []
  let tf := text_features.getD []
  if c.use_ml_model && c.has_model then
    match c.ml_strategy (extract_features transcript
        (if af.isEmpty then none else some af)
        (if tf.isEmpty then none else some tf)) with
    | Except.error e => Except.error e
    | Except.ok out =>
        Except.ok (build_result out.1 out.2.1 out.2.2,
          (end_time - start_time) * 1000, c.model_version)
  else
    let tf2 := match transcript with
      | some t => if t ≠ "" ∧ tf.isEmpty then extract_text_features t else tf
      | none => tf
    let out := predict_with_rules af tf2
    Except.ok (build_result out.1 out.2.1 out.2.2,
      (end_time - start_time) * 1000, c.model_version)

/-- A classifier in trained-model mode whose external model artifact raises
on every input. -/
def failing_ml_classifier : Classifier :=
  { use_ml_model := true, has_model := true,
    ml_strategy := fun _ => Except.error "model failure",
    model_version := "ml-1.0.0" }

/-- A classifier in rules-based fallback mode (no model artifact found). -/
def rules_classifier : Classifier :=
  { use_ml_model := false, has_model := false,
    ml_strategy := fun _ => Except.error "unused",
    model_version := "rules-1.0.0" }

/-- Counterexample to claim C2: `predict` contains no exception handler, so
an internal failure of the ML strategy propagates to the caller as an
exception instead of being caught and converted into a REJECT-biased
zero-confidence PredictionResult. -/
theorem C2_counterexample :
    failing_ml_classifier.predict 0 0 none none none = Except.error "model failure" := rfl

/-- Claim C2 as amended: in rules-based mode (the canonical call-recording
fallback) `predict` never fails — every input, including missing transcript
and missing features, yields a usable PredictionResult; failures of the ML
strategy are not handled inside `predict` but by the upload endpoint, which
substitutes a zero-confidence default labelled unknown. -/
theorem C2_amended_rules_mode_never_fails (c : Classifier) (t1 t2 : ℚ)
    (transcript : Option String) (af : Option DictQ) (tf : Option DictZ)
    (h : c.use_ml_model = false) :
    ∃ out, c.predict t1 t2 transcript af tf = Except.ok out := by
  simp [Classifier.predict, h]

/-- Witness for amended claim C2: the rules classifier on empty input. -/
theorem C2_amended_rules_mode_never_fails_witness :
    ∃ out, rules_classifier.predict 0 1 none none none = Except.ok out :=
  C2_amended_rules_mode_never_fails rules_classifier 0 1 none none none rfl

/-- Claim C9: the rule-engine strategy is deterministic — in rules mode the
PredictionResult (label, confidence, per-label scores) and the model version
returned by `predict` do not depend on the invocation's clock readings, so
two invocations with identical input features yield identical results. -/
theorem C9_rules_mode_deterministic (c : Classifier) (t1 t2 t1' t2' : ℚ)
    (transcript : Option String) (af : Option DictQ) (tf : Option DictZ)
    (h : c.use_ml_model = false) :
    (c.predict t1 t2 transcript af tf).map (fun out => (out.1, out.2.2)) =
    (c.predict t1' t2' transcript af tf).map (fun out => (out.1, out.2.2)) := by
  simp [Classifier.predict, h, Except.map]

/-- Witness for claim C9: two invocations at different clock readings. -/
theorem C9_rules_mode_deterministic_witness :
    (rules_classifier.predict 0 1 none none none).map (fun out => (out.1, out.2.2)) =
    (rules_classifier.predict 5 7 none none none).map (fun out => (out.1, out.2.2)) :=
  C9_rules_mode_deterministic rules_classifier 0 1 5 7 none none none rfl

/-- An HTTP error raised by an endpoint: status code and detail string. -/
abbrev HttpError := ℕ × String

/-- Embeds `CALL_TIMEOUT_SECONDS` (calls.py line 36). -/
def CALL_TIMEOUT_SECONDS : ℚ := 30

/-- The recording sub-document stored on a call (calls.py lines 456-460). -/
structure CallRecording where
  backendFilePath : String
  uploadedAt : ℚ
deriving DecidableEq

/-- The analysis sub-document stored on a call (calls.py lines 433-450). -/
structure CallAnalysis where
  intentLabel : String
  confidence : ℚ
  scores : List (String × ℚ)
  analyzedAt : ℚ
deriving DecidableEq

/-- Embeds the call document created by initiate_call (calls.py lines
163-178); timestamps are rational Unix seconds. -/
structure CallDoc where
  jobId : String
  adminUserId : String
  clientUserId : String
  roomName : String
  clientToken : String
  status : String
  createdAt : ℚ
  updatedAt : ℚ
  startedAt : Option ℚ
  endedAt : Option ℚ
  recording : Option CallRecording
  analysis : Option CallAnalysis
deriving DecidableEq

/-- Embeds `accept_call` (calls.py lines 237-284) on a found call document:
guard order is requester-is-the-addressed-client, then status-is-ringing; on
success the call becomes accepted with startedAt set. -/
def accept_call (call : CallDoc) (user_sub : String) (now : ℚ) :
    Except HttpError CallDoc :=
  if call.clientUserId ≠ user_sub then
    Except.error (403, "You cannot accept this call")
  else if call.status ≠ "ringing" then
    Except.error (400, "Call is not ringing")
  else
    Except.ok { call with status := "accepted", startedAt := some now, updatedAt := now }

/-- Embeds `reject_call` (calls.py lines 287-328): same guards as accept;
on success the call becomes rejected. -/
def reject_call (call : CallDoc) (user_sub : String) (now : ℚ) :
    Except HttpError CallDoc :=
  if call.clientUserId ≠ user_sub then
    Except.error (403, "You cannot reject this call")
  else if call.status ≠ "ringing" then
    Except.error (400, "Call is not ringing")
  else
    Except.ok { call with status := "rejected", updatedAt := now }

/-- The update condition of `check_missed_calls` (calls.py lines 83-108) on
one call document: a ringing call created strictly more than
CALL_TIMEOUT_SECONDS before now becomes missed. -/
def sweep_call (now : ℚ) (call : CallDoc) : CallDoc :=
  if call.status = "ringing" ∧ call.createdAt < now - CALL_TIMEOUT_SECONDS then
    { call with status := "missed", updatedAt := now }
  else call

/-- Embeds `check_missed_calls` (calls.py lines 83-108): the bulk
update_many over the calls collection. -/
def check_missed_calls (now : ℚ) (calls : List CallDoc) : List CallDoc :=
  calls.map (sweep_call now)

/-- The analysis document `upload_recording` attaches (calls.py lines
426-450): built from the classifier's PredictionResult, or — when the
classifier raised — the default with intentLabel unknown, confidence 0 and
empty scores. -/
def analysis_of (outcome : Except String PredictionResult) (now : ℚ) : CallAnalysis :=
  match outcome with
  | Except.ok pred =>
      { intentLabel := pred.predicted_intent, confidence := pred.confidence,
        scores := pred.all_scores.map (fun s => (s.label, s.score)), analyzedAt := now }
  | Except.error _ =>
      { intentLabel := "unknown", confidence := 0, scores := [], analyzedAt := now }

/-- Embeds `upload_recording` (calls.py lines 376-473) on a found call
document.  File persistence is abstracted by save_ok and recording_path;
the classifier run inside the try block is abstracted by its outcome, a
PredictionResult or a raised exception.  Returns the updated call document
and the response fields (intentLabel, confidence, scores). -/
def upload_recording (call : CallDoc) (user_sub : String)
    (recording_path : String) (save_ok : Bool)
    (classifier_outcome : Except String PredictionResult) (now : ℚ) :
    Except HttpError (CallDoc × String × ℚ × List (String × ℚ)) :=
  if call.clientUserId ≠ user_sub then
    Except.error (403, "Only the client can upload recordings")
  else if call.status ≠ "ended" then
    Except.error (400, "Can only upload recording after call ends")
  else if save_ok = false then
    Except.error (500, "Failed to save recording")
  else
    let analysis := analysis_of classifier_outcome now
    Except.ok
      ({ call with
          recording := some { backendFilePath := recording_path, uploadedAt := now },
          analysis := some analysis,
          updatedAt := now },
        analysis.intentLabel, analysis.confidence, analysis.scores)

/-- The call document as stored after an upload_recording request: the
update_one runs only on the success path, so an error leaves the stored
document unchanged. -/
def upload_recording_db (call : CallDoc) (user_sub : String)
    (recording_path : String) (save_ok : Bool)
    (classifier_outcome : Except String PredictionResult) (now : ℚ) : CallDoc :=
  match upload_recording call user_sub recording_path save_ok classifier_outcome now with
  | Except.ok out => out.1
  | Except.error _ => call

theorem upload_not_ended_err (call : CallDoc) (u path : String) (sv : Bool)
    (o : Except String PredictionResult) (now : ℚ) (hs : call.status ≠ "ended") :
    ∃ e, upload_recording call u path sv o now = Except.error e := by
  unfold upload_recording
  split_ifs
  · exact ⟨_, rfl⟩
  · exact ⟨_, rfl⟩

theorem upload_ok_eq (call : CallDoc) (u path : String)
    (o : Except String PredictionResult) (now : ℚ)
    (hc : call.clientUserId = u) (hs : call.status = "ended") :
    upload_recording call u path true o now =
      Except.ok
        ({ call with
            recording := some { backendFilePath := path, uploadedAt := now },
            analysis := some (analysis_of o now),
            updatedAt := now },
          (analysis_of o now).intentLabel, (analysis_of o now).confidence,
          (analysis_of o now).scores) := by
  unfold upload_recording
  rw [if_neg (fun h => h hc), if_neg (fun h => h hs), if_neg (by simp)]

theorem upload_db_ok (call : CallDoc) (u path : String)
    (o : Except String PredictionResult) (now : ℚ)
    (hc : call.clientUserId = u) (hs : call.status = "ended") :
    (upload_recording_db call u path true o now).analysis = some (analysis_of o now) ∧
    (upload_recording_db call u path true o now).recording =
      some { backendFilePath := path, uploadedAt := now } := by
  unfold upload_recording_db
  rw [upload_ok_eq call u path o now hc hs]
  exact ⟨rfl, rfl⟩

/-- Claim C4: accept and reject succeed only from status ringing with the
addressed client as requester; the timeout sweep turns any ringing call
created strictly more than 30 seconds ago into missed; and once the sweep
has marked a call missed, accept and reject both fail. -/
theorem C4_call_state_machine :
    (∀ (call : CallDoc) (u : String) (now : ℚ) (c' : CallDoc),
       accept_call call u now = Except.ok c' →
       call.status = "ringing" ∧ call.clientUserId = u) ∧
    (∀ (call : CallDoc) (u : String) (now : ℚ) (c' : CallDoc),
       reject_call call u now = Except.ok c' →
       call.status = "ringing" ∧ call.clientUserId = u) ∧
    (∀ (call : CallDoc) (now : ℚ), call.status = "ringing" →
       call.createdAt < now - CALL_TIMEOUT_SECONDS →
       (sweep_call now call).status = "missed") ∧
    (∀ (call : CallDoc) (now now' : ℚ) (u : String), call.status = "ringing" →
       call.createdAt < now - CALL_TIMEOUT_SECONDS →
       (∀ c', accept_call (sweep_call now call) u now' ≠ Except.ok c') ∧
       (∀ c', reject_call (sweep_call now call) u now' ≠ Except.ok c')) := by
  refine ⟨?_, ?_, ?_, ?_⟩
  · intro call u now c' h
    unfold accept_call at h
    split_ifs at h with h1 h2
    exact ⟨not_not.mp h2, not_not.mp h1⟩
  · intro call u now c' h
    unfold reject_call at h
    split_ifs at h with h1 h2
    exact ⟨not_not.mp h2, not_not.mp h1⟩
  · intro call now hring hold
    unfold sweep_call
    rw [if_pos ⟨hring, hold⟩]
  · intro call now now' u hring hold
    have hsw : sweep_call now call = { call with status := "missed", updatedAt := now } := by
      unfold sweep_call
      rw [if_pos (show call.status = "ringing" ∧
        call.createdAt < now - CALL_TIMEOUT_SECONDS from ⟨hring, hold⟩)]
    constructor <;> intro c' hc <;> rw [hsw] at hc
    · unfold accept_call at hc
      split_ifs at hc with h1 h2
      exact h2 (by simp)
    · unfold reject_call at hc
      split_ifs at hc with h1 h2
      exact h2 (by simp)

/-- A freshly initiated call document, still ringing. -/
def ringing_call : CallDoc :=
  { jobId := "job1", adminUserId := "admin1", clientUserId := "client1",
    roomName := "room1", clientToken := "tok1", status := "ringing",
    createdAt := 0, updatedAt := 0, startedAt := none, endedAt := none,
    recording := none, analysis := none }

/-- A call document whose call has ended, before any upload. -/
def ended_call : CallDoc :=
  { jobId := "job2", adminUserId := "admin1", clientUserId := "client1",
    roomName := "room2", clientToken := "tok2", status := "ended",
    createdAt := 0, updatedAt := 2, startedAt := some 1, endedAt := some 2,
    recording := none, analysis := none }

/-- Witness for claim C4: a ringing call created at time 0, swept at time
100, is missed, and a subsequent accept by the addressed client fails. -/
theorem C4_call_state_machine_witness :
    (sweep_call 100 ringing_call).status = "missed" ∧
    accept_call (sweep_call 100 ringing_call) "client1" 101 ≠ Except.ok ringing_call := by
  constructor
  · exact C4_call_state_machine.2.2.1 ringing_call 100 rfl
      (by norm_num [ringing_call, CALL_TIMEOUT_SECONDS])
  · exact (C4_call_state_machine.2.2.2 ringing_call 100 101 "client1" rfl
      (by norm_num [ringing_call, CALL_TIMEOUT_SECONDS])).1 ringing_call

/-- Claim C5: uploading a recording for a call not in status ended fails
with an error and leaves the stored call document unchanged; for an ended
call a successful upload attaches exactly one analysis (the analysis field
becomes some) together with the recording reference; and a second upload
replaces the prior recording reference and analysis with those of the
second upload rather than appending. -/
theorem C5_upload_guard_and_overwrite :
    (∀ (call : CallDoc) (u path : String) (sv : Bool)
       (o : Except String PredictionResult) (now : ℚ), call.status ≠ "ended" →
       (∃ e, upload_recording call u path sv o now = Except.error e) ∧
       upload_recording_db call u path sv o now = call) ∧
    (∀ (call : CallDoc) (u path : String) (o : Except String PredictionResult) (now : ℚ),
       call.status = "ended" → call.clientUserId = u →
       (upload_recording_db call u path true o now).analysis = some (analysis_of o now) ∧
       (upload_recording_db call u path true o now).recording =
         some { backendFilePath := path, uploadedAt := now }) ∧
    (∀ (call : CallDoc) (u p1 p2 : String) (o1 o2 : Except String PredictionResult)
       (n1 n2 : ℚ), call.status = "ended" → call.clientUserId = u →
       (upload_recording_db (upload_recording_db call u p1 true o1 n1)
           u p2 true o2 n2).analysis = some (analysis_of o2 n2) ∧
       (upload_recording_db (upload_recording_db call u p1 true o1 n1)
           u p2 true o2 n2).recording =
         some { backendFilePath := p2, uploadedAt := n2 }) := by
  refine ⟨?_, ?_, ?_⟩
  · intro call u path sv o now hs
    obtain ⟨e, he⟩ := upload_not_ended_err call u path sv o now hs
    refine ⟨⟨e, he⟩, ?_⟩
    unfold upload_recording_db
    rw [he]
  · intro call u path o now hs hc
    exact upload_db_ok call u path o now hc hs
  · intro call u p1 p2 o1 o2 n1 n2 hs hc
    have h1 : upload_recording_db call u p1 true o1 n1 =
        { call with
            recording := some { backendFilePath := p1, uploadedAt := n1 },
            analysis := some (analysis_of o1 n1),
            updatedAt := n1 } := by
      unfold upload_recording_db
      rw [upload_ok_eq call u p1 o1 n1 hc hs]
    rw [h1]
    exact upload_db_ok _ u p2 o2 n2 hc hs

/-- Witness for claim C5: an upload on a still-ringing call errors, and a
second upload on an ended call leaves the second upload's analysis. -/
theorem C5_upload_guard_and_overwrite_witness :
    (∃ e, upload_recording ringing_call "client1" "p" true (Except.error "x") 0 =
      Except.error e) ∧
    (upload_recording_db (upload_recording_db ended_call "client1" "p1" true
        (Except.error "x") 3) "client1" "p2" true (Except.error "y") 4).analysis =
      some (analysis_of (Except.error "y") 4) := by
  constructor
  · exact (C5_upload_guard_and_overwrite.1 ringing_call "client1" "p" true
      (Except.error "x") 0 (by decide)).1
  · exact (C5_upload_guard_and_overwrite.2.2 ended_call "client1" "p1" "p2"
      (Except.error "x") (Except.error "y") 3 4 rfl rfl).1

/-- Claim C10: when the classifier raises during recording-upload analysis,
the endpoint still succeeds and attaches an analysis whose intentLabel is
the string unknown — a value outside the closed INTENT_LABELS set — with
confidence 0 and an empty score map, and the recording reference is still
stored. -/
theorem C10_unknown_label_on_classifier_failure (call : CallDoc)
    (u path e : String) (now : ℚ)
    (hc : call.clientUserId = u) (hs : call.status = "ended") :
    (upload_recording call u path true (Except.error e) now =
      Except.ok
        ({ call with
            recording := some { backendFilePath := path, uploadedAt := now },
            analysis := some
              { intentLabel := "unknown", confidence := 0, scores := [], analyzedAt := now },
            updatedAt := now },
          "unknown", 0, [])) ∧
    "unknown" ∉ INTENT_LABELS := by
  refine ⟨?_, by decide⟩
  rw [upload_ok_eq call u path (Except.error e) now hc hs]
  rfl

/-- Witness for claim C10: an ended call, classifier raising "boom". -/
theorem C10_unknown_label_on_classifier_failure_witness :
    (upload_recording ended_call "client1" "p" true (Except.error "boom") 5 =
      Except.ok
        ({ ended_call with
            recording := some { backendFilePath := "p", uploadedAt := 5 },
            analysis := some
              { intentLabel := "unknown", confidence := 0, scores := [], analyzedAt := 5 },
            updatedAt := 5 },
          "unknown", 0, [])) ∧
    "unknown" ∉ INTENT_LABELS :=
  C10_unknown_label_on_classifier_failure ended_call "client1" "p" "boom" 5 rfl rfl

end SmartAgri
